import Mathlib

/-!
Verification of the swerve-drive control core of the 2020-Robot repository.

The repository's sources under scrutiny are `SwerveTrain.h` (the dispatcher
over four swerve modules) and `Limelight.h` (the vision-table reader).  The
per-module actuator class `SwerveModule` and the configuration constants
(`R_controllerDeadzone`, the mechanical period a.k.a. "Nic's Constant") are
collaborators whose code is not part of these headers; where their behaviour
decides a property they are modelled from the design document.

Doubles are embedded as rationals (`ℚ`): every claim here treats values
exactly, never through rounding.  Side-effecting dispatcher methods are
embedded as pure functions from a dispatcher value and a module environment
to a new environment together with a trace of emitted events, so that
ordering, broadcast and frame properties become statements about the
returned trace and environment.
-/

/-- A module actuator's observable state: raw azimuth encoder reading,
stored zero reference, and the last scalar written to each of the drive and
swerve channels.  Modelled from the spec: the `SwerveModule` collaborator
(its header is not among the sources; §6 of the design lists its
capability contract). -/
structure SwerveModule where
  swervePosition : ℚ
  swerveZeroPosition : ℚ
  driveSpeed : ℚ
  swerveSpeed : ℚ
deriving DecidableEq

/-- Modelled from the spec: module actuator channel write `setDriveSpeed`. -/
def SwerveModule.setDriveSpeed (m : SwerveModule) (v : ℚ) : SwerveModule :=
  ⟨m.swervePosition, m.swerveZeroPosition, v, m.swerveSpeed⟩

/-- Modelled from the spec: module actuator channel write `setSwerveSpeed`. -/
def SwerveModule.setSwerveSpeed (m : SwerveModule) (v : ℚ) : SwerveModule :=
  ⟨m.swervePosition, m.swerveZeroPosition, m.driveSpeed, v⟩

/-- Modelled from the spec (§4.4): zero capture reads the module's current
raw azimuth encoder value and stores it as the zero reference, overwriting
any prior value; no motion is commanded. -/
def SwerveModule.setZeroPosition (m : SwerveModule) : SwerveModule :=
  ⟨m.swervePosition, m.swervePosition, m.driveSpeed, m.swerveSpeed⟩

/-- Accessor for the stored zero reference. -/
def SwerveModule.getSwerveZeroPosition (m : SwerveModule) : ℚ :=
  m.swerveZeroPosition

/-- Accessor for the raw azimuth encoder reading. -/
def SwerveModule.getSwervePosition (m : SwerveModule) : ℚ :=
  m.swervePosition

/-- Lower of the two candidate targets bracketing the current position:
the largest `Z + k·P` (integer `k`) not above the current position `c`. -/
def floorCandidate (P Z c : ℚ) : ℚ :=
  Z + (⌊(c - Z) / P⌋ : ℚ) * P

/-- Upper bracketing candidate: one mechanical period above `floorCandidate`. -/
def ceilCandidate (P Z c : ℚ) : ℚ :=
  Z + ((⌊(c - Z) / P⌋ : ℚ) + 1) * P

/-- Modelled from the spec (§4.5): the target chosen by
`SwerveModule::assumeSwerveNearestZeroPosition` (its implementation file is
not among the sources).  Among the candidates `Z + k·P` it picks the one at
minimal travel from the current raw position `c`; on an exact half-period
tie it prefers the candidate of smaller absolute value. -/
def nearestZeroTarget (P Z c : ℚ) : ℚ :=
  if c - floorCandidate P Z c < ceilCandidate P Z c - c then floorCandidate P Z c
  else if ceilCandidate P Z c - c < c - floorCandidate P Z c then ceilCandidate P Z c
  else if |floorCandidate P Z c| ≤ |ceilCandidate P Z c| then floorCandidate P Z c
  else ceilCandidate P Z c

/-- Commands the dispatcher can issue: channel writes to a module actuator,
zero capture on a module, an azimuth position command, and a telemetry
publication (`frc::SmartDashboard::PutNumber`).  Modules are identified by
the handle the dispatcher stores for them. -/
inductive Event where
  | driveCmd : Nat → ℚ → Event
  | swerveCmd : Nat → ℚ → Event
  | captureZero : Nat → Event
  | homeTo : Nat → ℚ → Event
  | publish : String → ℚ → Event
deriving DecidableEq

/-- Events that command motion: drive-channel writes, swerve-channel writes
and azimuth position commands.  Zero capture and telemetry are not motion. -/
def isMotionEvent : Event → Bool
  | Event.driveCmd _ _ => true
  | Event.swerveCmd _ _ => true
  | Event.homeTo _ _ => true
  | Event.captureZero _ => false
  | Event.publish _ _ => false

/-- The module handle an event addresses, when it addresses one directly. -/
def eventModule : Event → Option Nat
  | Event.driveCmd h _ => some h
  | Event.swerveCmd h _ => some h
  | Event.captureZero h => some h
  | Event.homeTo h _ => some h
  | Event.publish _ _ => none

/-- The environment mapping module handles to module actuator states. -/
abbrev ModuleEnv := Nat → SwerveModule

/-- Point update of a module environment at one handle. -/
def updEnv (env : ModuleEnv) (h : Nat) (f : SwerveModule → SwerveModule) : ModuleEnv :=
  fun h2 => if h2 = h then f (env h2) else env h2

/-- `SwerveTrain`'s members: the four module handles stored by the
constructor, in the front-right, front-left, rear-left, rear-right slots.
The class has no other data members. -/
structure SwerveTrain where
  m_frontRight : Nat
  m_frontLeft : Nat
  m_rearLeft : Nat
  m_rearRight : Nat
deriving DecidableEq

/-- Outcome of one dispatcher method call: the dispatcher value after the
call, the module environment after the call, and the trace of events the
call issued, in order. -/
abbrev DispatchResult := SwerveTrain × ModuleEnv × List Event

/-- Dispatcher value after a call. -/
def trainAfter (r : DispatchResult) : SwerveTrain := r.1

/-- Module environment after a call. -/
def envAfter (r : DispatchResult) : ModuleEnv := r.2.1

/-- Event trace of a call. -/
def traceOf (r : DispatchResult) : List Event := r.2.2

/-- `SwerveTrain::setDriveSpeed`: writes the one scalar to each module's
drive channel, front-right, front-left, rear-left, rear-right. -/
def SwerveTrain.setDriveSpeed (tr : SwerveTrain) (env : ModuleEnv) (driveSpeed : ℚ) :
    DispatchResult :=
  (tr,
   updEnv (updEnv (updEnv (updEnv env tr.m_frontRight
       (fun m => m.setDriveSpeed driveSpeed)) tr.m_frontLeft
       (fun m => m.setDriveSpeed driveSpeed)) tr.m_rearLeft
       (fun m => m.setDriveSpeed driveSpeed)) tr.m_rearRight
       (fun m => m.setDriveSpeed driveSpeed),
   [Event.driveCmd tr.m_frontRight driveSpeed,
    Event.driveCmd tr.m_frontLeft driveSpeed,
    Event.driveCmd tr.m_rearLeft driveSpeed,
    Event.driveCmd tr.m_rearRight driveSpeed])

/-- `SwerveTrain::setSwerveSpeed`: writes the one scalar to each module's
swerve channel, front-right, front-left, rear-left, rear-right. -/
def SwerveTrain.setSwerveSpeed (tr : SwerveTrain) (env : ModuleEnv) (swerveSpeed : ℚ) :
    DispatchResult :=
  (tr,
   updEnv (updEnv (updEnv (updEnv env tr.m_frontRight
       (fun m => m.setSwerveSpeed swerveSpeed)) tr.m_frontLeft
       (fun m => m.setSwerveSpeed swerveSpeed)) tr.m_rearLeft
       (fun m => m.setSwerveSpeed swerveSpeed)) tr.m_rearRight
       (fun m => m.setSwerveSpeed swerveSpeed),
   [Event.swerveCmd tr.m_frontRight swerveSpeed,
    Event.swerveCmd tr.m_frontLeft swerveSpeed,
    Event.swerveCmd tr.m_rearLeft swerveSpeed,
    Event.swerveCmd tr.m_rearRight swerveSpeed])

/-- `SwerveTrain::setSwerveZeroPosition`: captures the zero on all four
modules, then, when `verbose`, publishes the four stored zeros to the
SmartDashboard. -/
def SwerveTrain.setSwerveZeroPosition (tr : SwerveTrain) (env : ModuleEnv) (verbose : Bool) :
    DispatchResult :=
  (tr,
   updEnv (updEnv (updEnv (updEnv env tr.m_frontRight
       SwerveModule.setZeroPosition) tr.m_frontLeft
       SwerveModule.setZeroPosition) tr.m_rearLeft
       SwerveModule.setZeroPosition) tr.m_rearRight
       SwerveModule.setZeroPosition,
   [Event.captureZero tr.m_frontRight,
    Event.captureZero tr.m_frontLeft,
    Event.captureZero tr.m_rearLeft,
    Event.captureZero tr.m_rearRight] ++
   (if verbose then
      [Event.publish "FR Swrv Pos0"
         ((updEnv (updEnv (updEnv (updEnv env tr.m_frontRight
             SwerveModule.setZeroPosition) tr.m_frontLeft
             SwerveModule.setZeroPosition) tr.m_rearLeft
             SwerveModule.setZeroPosition) tr.m_rearRight
             SwerveModule.setZeroPosition) tr.m_frontRight).getSwerveZeroPosition,
       Event.publish "FL Swrv Pos0"
         ((updEnv (updEnv (updEnv (updEnv env tr.m_frontRight
             SwerveModule.setZeroPosition) tr.m_frontLeft
             SwerveModule.setZeroPosition) tr.m_rearLeft
             SwerveModule.setZeroPosition) tr.m_rearRight
             SwerveModule.setZeroPosition) tr.m_frontLeft).getSwerveZeroPosition,
       Event.publish "RL Swrv Pos0"
         ((updEnv (updEnv (updEnv (updEnv env tr.m_frontRight
             SwerveModule.setZeroPosition) tr.m_frontLeft
             SwerveModule.setZeroPosition) tr.m_rearLeft
             SwerveModule.setZeroPosition) tr.m_rearRight
             SwerveModule.setZeroPosition) tr.m_rearLeft).getSwerveZeroPosition,
       Event.publish "RR Swrv Pos0"
         ((updEnv (updEnv (updEnv (updEnv env tr.m_frontRight
             SwerveModule.setZeroPosition) tr.m_frontLeft
             SwerveModule.setZeroPosition) tr.m_rearLeft
             SwerveModule.setZeroPosition) tr.m_rearRight
             SwerveModule.setZeroPosition) tr.m_rearRight).getSwerveZeroPosition]
    else []))

/-- `SwerveTrain::assumeZeroPosition`: commands each module's azimuth
straight to its stored zero reference (fire-and-forget position command;
the motion itself is the actuator's closed loop, external to the core). -/
def SwerveTrain.assumeZeroPosition (tr : SwerveTrain) (env : ModuleEnv) :
    DispatchResult :=
  (tr, env,
   [Event.homeTo tr.m_frontRight (env tr.m_frontRight).getSwerveZeroPosition,
    Event.homeTo tr.m_frontLeft (env tr.m_frontLeft).getSwerveZeroPosition,
    Event.homeTo tr.m_rearLeft (env tr.m_rearLeft).getSwerveZeroPosition,
    Event.homeTo tr.m_rearRight (env tr.m_rearRight).getSwerveZeroPosition])

/-- `SwerveTrain::assumeNearestZeroPosition`: commands each module's azimuth
to the zero-equivalent target nearest its current raw position; `P` is the
mechanical period (Nic's Constant, injected configuration). -/
def SwerveTrain.assumeNearestZeroPosition (tr : SwerveTrain) (env : ModuleEnv) (P : ℚ) :
    DispatchResult :=
  (tr, env,
   [Event.homeTo tr.m_frontRight
      (nearestZeroTarget P (env tr.m_frontRight).getSwerveZeroPosition
        (env tr.m_frontRight).getSwervePosition),
    Event.homeTo tr.m_frontLeft
      (nearestZeroTarget P (env tr.m_frontLeft).getSwerveZeroPosition
        (env tr.m_frontLeft).getSwervePosition),
    Event.homeTo tr.m_rearLeft
      (nearestZeroTarget P (env tr.m_rearLeft).getSwerveZeroPosition
        (env tr.m_rearLeft).getSwervePosition),
    Event.homeTo tr.m_rearRight
      (nearestZeroTarget P (env tr.m_rearRight).getSwerveZeroPosition
        (env tr.m_rearRight).getSwervePosition)])

/-- `SwerveTrain::publishSwervePositions`: publishes the four current
azimuth readings to the SmartDashboard; pure observation. -/
def SwerveTrain.publishSwervePositions (tr : SwerveTrain) (env : ModuleEnv) :
    DispatchResult :=
  (tr, env,
   [Event.publish "FR Swrv Pos" (env tr.m_frontRight).getSwervePosition,
    Event.publish "FL Swrv Pos" (env tr.m_frontLeft).getSwervePosition,
    Event.publish "RL Swrv Pos" (env tr.m_rearLeft).getSwervePosition,
    Event.publish "RR Swrv Pos" (env tr.m_rearRight).getSwervePosition])

/-- `SwerveTrain::getControllerAbsoluteMagnitude`: the sum of the absolute
values of the joystick x and y readings (the deliberate taxicab formula). -/
def getControllerAbsoluteMagnitude (x y : ℚ) : ℚ :=
  |x| + |y|

/-- `SwerveTrain::getControllerInDeadzone`: true exactly when all three
axis readings are strictly inside the configured deadzone band.  The
threshold `zone` stands for the configuration constant
`R_controllerDeadzone`. -/
def getControllerInDeadzone (x y z zone : ℚ) : Bool :=
  if |x| < zone ∧ |y| < zone ∧ |z| < zone then true else false

/-- Modelled from the spec (§4.3): `RotationUnitConverter`, the Angle →
RotationUnit map `θ / (2π) · mechanicalPeriod` used inside
`getControllerClockwiseREVRotationsFromCenter` (whose implementation file
is not among the sources).  The constant `2π` is abstracted as the nonzero
parameter `twoPi` so the development stays in exact arithmetic. -/
def unitsFromAngle (mechanicalPeriod twoPi θ : ℚ) : ℚ :=
  θ / twoPi * mechanicalPeriod

/-- Modelled from the spec (§4.3): the inverse RotationUnit → Angle map. -/
def angleFromUnits (mechanicalPeriod twoPi u : ℚ) : ℚ :=
  u / mechanicalPeriod * twoPi

/-- The limelight's half of the network table: a partial map from keys to
stored numbers. -/
abbrev NetworkTable := String → Option ℚ

/-- `NetworkTable::GetNumber(key, default)`: the stored number under `key`,
or `default` when nothing is stored there. -/
def NetworkTable.getNumber (t : NetworkTable) (key : String) (defaultValue : ℚ) : ℚ :=
  (t key).getD defaultValue

/-- `Limelight::horizontalOffset`: the stored `tx`, defaulting to 0. -/
def Limelight.horizontalOffset (t : NetworkTable) : ℚ :=
  t.getNumber "tx" 0

/-- `Limelight::verticalOffset`: the stored `ty`, defaulting to 0. -/
def Limelight.verticalOffset (t : NetworkTable) : ℚ :=
  t.getNumber "ty" 0

/-- `Limelight::targetArea`: the stored `ta`, defaulting to 0. -/
def Limelight.targetArea (t : NetworkTable) : ℚ :=
  t.getNumber "ta" 0

/-- `Limelight::target`: the stored `tv` (default 0) converted to `bool`
the way C++ converts a `double`: nonzero means true. -/
def Limelight.target (t : NetworkTable) : Bool :=
  if t.getNumber "tv" 0 = 0 then false else true

/-- C2: the deadzone check returns true iff each of the three axis
readings is strictly below the threshold in absolute value.  The embedding
is a pure function of the sampled axes and the threshold, so the check has
no side effects. -/
theorem getControllerInDeadzone_iff (x y z zone : ℚ) :
    getControllerInDeadzone x y z zone = true ↔
      (|x| < zone ∧ |y| < zone ∧ |z| < zone) := by
  unfold getControllerInDeadzone
  split_ifs with h <;> simp [h]

/-- C3: the controller magnitude is exactly `|x| + |y|` (taxicab, not
Euclidean), vanishes at the origin, and is never negative. -/
theorem getControllerAbsoluteMagnitude_spec (x y : ℚ) :
    getControllerAbsoluteMagnitude x y = |x| + |y| ∧
      getControllerAbsoluteMagnitude 0 0 = 0 ∧
      0 ≤ getControllerAbsoluteMagnitude x y := by
  refine ⟨rfl, by simp [getControllerAbsoluteMagnitude], ?_⟩
  have hx := abs_nonneg x
  have hy := abs_nonneg y
  unfold getControllerAbsoluteMagnitude
  linarith

/-- C7: a non-positive deadzone threshold makes the check return false on
every input — no axis can have absolute value strictly below it, and the
code needs no special-case branch for this. -/
theorem getControllerInDeadzone_false_of_nonpos_zone (x y z zone : ℚ)
    (hz : zone ≤ 0) :
    getControllerInDeadzone x y z zone = false := by
  unfold getControllerInDeadzone
  split_ifs with h
  · exact absurd h.1 (not_lt.mpr (hz.trans (abs_nonneg x)))
  · rfl

/-- Witness for C7 at threshold 0 and a concrete input. -/
theorem getControllerInDeadzone_false_of_nonpos_zone_witness :
    (0 : ℚ) ≤ 0 ∧ getControllerInDeadzone 1 (1/2) 0 0 = false :=
  ⟨le_refl 0, getControllerInDeadzone_false_of_nonpos_zone 1 (1/2) 0 0 (le_refl 0)⟩

/-- The floor candidate is one of the zero-equivalent targets. -/
lemma floorCandidate_mem (P Z c : ℚ) :
    ∃ k : ℤ, floorCandidate P Z c = Z + (k : ℚ) * P :=
  ⟨⌊(c - Z) / P⌋, rfl⟩

/-- The ceiling candidate is one of the zero-equivalent targets. -/
lemma ceilCandidate_mem (P Z c : ℚ) :
    ∃ k : ℤ, ceilCandidate P Z c = Z + (k : ℚ) * P :=
  ⟨⌊(c - Z) / P⌋ + 1, by unfold ceilCandidate; push_cast; ring⟩

/-- For a positive period the floor candidate does not exceed the current
position. -/
lemma floorCandidate_le (P Z c : ℚ) (hP : 0 < P) :
    floorCandidate P Z c ≤ c := by
  unfold floorCandidate
  have h := (le_div_iff₀ hP).mp (Int.floor_le ((c - Z) / P))
  linarith

/-- For a positive period the current position lies strictly below the
ceiling candidate. -/
lemma lt_ceilCandidate (P Z c : ℚ) (hP : 0 < P) :
    c < ceilCandidate P Z c := by
  unfold ceilCandidate
  have h := (div_lt_iff₀ hP).mp (Int.lt_floor_add_one ((c - Z) / P))
  linarith

/-- The two bracketing candidates are one period apart. -/
lemma ceilCandidate_sub_floorCandidate (P Z c : ℚ) :
    ceilCandidate P Z c - floorCandidate P Z c = P := by
  unfold ceilCandidate floorCandidate
  ring

/-- The chosen nearest-zero target is a zero-equivalent candidate. -/
lemma nearestZeroTarget_mem (P Z c : ℚ) :
    ∃ k : ℤ, nearestZeroTarget P Z c = Z + (k : ℚ) * P := by
  unfold nearestZeroTarget
  split_ifs with h1 h2 h3
  · exact floorCandidate_mem P Z c
  · exact ceilCandidate_mem P Z c
  · exact floorCandidate_mem P Z c
  · exact ceilCandidate_mem P Z c

/-- The chosen nearest-zero target is within half a mechanical period of
the current position. -/
lemma nearestZeroTarget_dist (P Z c : ℚ) (hP : 0 < P) :
    |nearestZeroTarget P Z c - c| ≤ P / 2 := by
  have hlo := floorCandidate_le P Z c hP
  have hhi := lt_ceilCandidate P Z c hP
  have hgap := ceilCandidate_sub_floorCandidate P Z c
  unfold nearestZeroTarget
  split_ifs with h1 h2 h3
  · rw [abs_of_nonpos (by linarith)]
    linarith
  · rw [abs_of_nonneg (by linarith)]
    linarith
  · rw [abs_of_nonpos (by linarith)]
    linarith
  · rw [abs_of_nonneg (by linarith)]
    linarith

/-- C1: every azimuth target the dispatcher's nearest-zero homing commands
is a zero-equivalent candidate `ZeroReference + k·mechanicalPeriod` of the
addressed module, and the travel it asks of that module is at most half a
mechanical period. -/
theorem assumeNearestZeroPosition_target_spec (P : ℚ) (hP : 0 < P)
    (tr : SwerveTrain) (env : ModuleEnv) (h : Nat) (t : ℚ)
    (hmem : Event.homeTo h t ∈ traceOf (tr.assumeNearestZeroPosition env P)) :
    (∃ k : ℤ, t = (env h).swerveZeroPosition + (k : ℚ) * P) ∧
      |t - (env h).swervePosition| ≤ P / 2 := by
  simp only [traceOf, SwerveTrain.assumeNearestZeroPosition,
    SwerveModule.getSwerveZeroPosition, SwerveModule.getSwervePosition,
    List.mem_cons, List.not_mem_nil, or_false, Event.homeTo.injEq] at hmem
  rcases hmem with ⟨rfl, rfl⟩ | ⟨rfl, rfl⟩ | ⟨rfl, rfl⟩ | ⟨rfl, rfl⟩ <;>
    exact ⟨nearestZeroTarget_mem P _ _, nearestZeroTarget_dist P _ _ hP⟩

/-- Concrete train and environment used by witnesses: every handle maps to a
module at raw position 3200 with stored zero 1000 (the design document's
Scenario E numbers, mechanical period 4096). -/
def witnessEnv : ModuleEnv :=
  fun _ => ⟨3200, 1000, 0, 0⟩

/-- Concrete dispatcher value used by witnesses. -/
def witnessTrain : SwerveTrain :=
  ⟨0, 1, 2, 3⟩

/-- Witness for C1: at period 4096, zero 1000 and position 3200 the
commanded target is a candidate and within 2048 of the position. -/
theorem assumeNearestZeroPosition_target_spec_witness :
    (0 : ℚ) < 4096 ∧
      ((∃ k : ℤ, nearestZeroTarget 4096 1000 3200 = 1000 + (k : ℚ) * 4096) ∧
        |nearestZeroTarget 4096 1000 3200 - 3200| ≤ 4096 / 2) := by
  refine ⟨by norm_num, ?_⟩
  have h := assumeNearestZeroPosition_target_spec 4096 (by norm_num)
    witnessTrain witnessEnv 0 (nearestZeroTarget 4096 1000 3200)
    (by simp [traceOf, SwerveTrain.assumeNearestZeroPosition, witnessTrain,
      witnessEnv, SwerveModule.getSwerveZeroPosition, SwerveModule.getSwervePosition])
  simpa [witnessEnv] using h

/-- C4: converting an angle to rotation units by `θ / (2π) · P` and back by
`u / P · (2π)` returns the original angle exactly (hence within any
floating-point tolerance), for any nonzero period and nonzero `2π`
constant. -/
theorem angleFromUnits_unitsFromAngle_roundtrip (P twoPi θ : ℚ)
    (hP : P ≠ 0) (h2 : twoPi ≠ 0) :
    angleFromUnits P twoPi (unitsFromAngle P twoPi θ) = θ := by
  unfold angleFromUnits unitsFromAngle
  field_simp
  ring

/-- Witness for C4 at period 4096, `2π ≈ 710/113` and angle 3. -/
theorem angleFromUnits_unitsFromAngle_roundtrip_witness :
    (4096 : ℚ) ≠ 0 ∧ (710 / 113 : ℚ) ≠ 0 ∧
      angleFromUnits 4096 (710 / 113) (unitsFromAngle 4096 (710 / 113) 3) = 3 :=
  ⟨by norm_num, by norm_num,
    angleFromUnits_unitsFromAngle_roundtrip 4096 (710 / 113) 3
      (by norm_num) (by norm_num)⟩

/-- The module environment after the drive-speed broadcast: every handle the
dispatcher stores gets its drive channel set to `v`; any other handle is
untouched. -/
lemma setDriveSpeed_env_eq (tr : SwerveTrain) (env : ModuleEnv) (v : ℚ) (h2 : Nat) :
    envAfter (tr.setDriveSpeed env v) h2 =
      if h2 = tr.m_frontRight ∨ h2 = tr.m_frontLeft ∨
          h2 = tr.m_rearLeft ∨ h2 = tr.m_rearRight
      then (env h2).setDriveSpeed v else env h2 := by
  simp only [envAfter, SwerveTrain.setDriveSpeed, updEnv]
  split_ifs <;> simp_all [SwerveModule.setDriveSpeed]

/-- The module environment after the swerve-speed broadcast. -/
lemma setSwerveSpeed_env_eq (tr : SwerveTrain) (env : ModuleEnv) (v : ℚ) (h2 : Nat) :
    envAfter (tr.setSwerveSpeed env v) h2 =
      if h2 = tr.m_frontRight ∨ h2 = tr.m_frontLeft ∨
          h2 = tr.m_rearLeft ∨ h2 = tr.m_rearRight
      then (env h2).setSwerveSpeed v else env h2 := by
  simp only [envAfter, SwerveTrain.setSwerveSpeed, updEnv]
  split_ifs <;> simp_all [SwerveModule.setSwerveSpeed]

/-- The module environment after the zero-capture broadcast. -/
lemma setSwerveZeroPosition_env_eq (tr : SwerveTrain) (env : ModuleEnv) (verbose : Bool)
    (h2 : Nat) :
    envAfter (tr.setSwerveZeroPosition env verbose) h2 =
      if h2 = tr.m_frontRight ∨ h2 = tr.m_frontLeft ∨
          h2 = tr.m_rearLeft ∨ h2 = tr.m_rearRight
      then (env h2).setZeroPosition else env h2 := by
  simp only [envAfter, SwerveTrain.setSwerveZeroPosition, updEnv]
  split_ifs <;> simp_all [SwerveModule.setZeroPosition]

/-- C5: the drive-speed broadcast writes exactly `v` to the drive channel
of each of the four module actuators and the swerve-speed broadcast writes
exactly `v` to each swerve channel; neither touches any other channel of
any module, any module outside the train, or the dispatcher's own members,
and each issues exactly the four channel writes. -/
theorem setDriveSpeed_setSwerveSpeed_broadcast (tr : SwerveTrain) (env : ModuleEnv) (v : ℚ) :
    (trainAfter (tr.setDriveSpeed env v) = tr ∧
      (envAfter (tr.setDriveSpeed env v) tr.m_frontRight).driveSpeed = v ∧
      (envAfter (tr.setDriveSpeed env v) tr.m_frontLeft).driveSpeed = v ∧
      (envAfter (tr.setDriveSpeed env v) tr.m_rearLeft).driveSpeed = v ∧
      (envAfter (tr.setDriveSpeed env v) tr.m_rearRight).driveSpeed = v ∧
      (∀ h2 : Nat,
        (envAfter (tr.setDriveSpeed env v) h2).swerveSpeed = (env h2).swerveSpeed ∧
        (envAfter (tr.setDriveSpeed env v) h2).swervePosition = (env h2).swervePosition ∧
        (envAfter (tr.setDriveSpeed env v) h2).swerveZeroPosition =
          (env h2).swerveZeroPosition) ∧
      (∀ h2 : Nat, h2 ≠ tr.m_frontRight → h2 ≠ tr.m_frontLeft →
        h2 ≠ tr.m_rearLeft → h2 ≠ tr.m_rearRight →
        envAfter (tr.setDriveSpeed env v) h2 = env h2) ∧
      traceOf (tr.setDriveSpeed env v) =
        [Event.driveCmd tr.m_frontRight v, Event.driveCmd tr.m_frontLeft v,
         Event.driveCmd tr.m_rearLeft v, Event.driveCmd tr.m_rearRight v]) ∧
    (trainAfter (tr.setSwerveSpeed env v) = tr ∧
      (envAfter (tr.setSwerveSpeed env v) tr.m_frontRight).swerveSpeed = v ∧
      (envAfter (tr.setSwerveSpeed env v) tr.m_frontLeft).swerveSpeed = v ∧
      (envAfter (tr.setSwerveSpeed env v) tr.m_rearLeft).swerveSpeed = v ∧
      (envAfter (tr.setSwerveSpeed env v) tr.m_rearRight).swerveSpeed = v ∧
      (∀ h2 : Nat,
        (envAfter (tr.setSwerveSpeed env v) h2).driveSpeed = (env h2).driveSpeed ∧
        (envAfter (tr.setSwerveSpeed env v) h2).swervePosition = (env h2).swervePosition ∧
        (envAfter (tr.setSwerveSpeed env v) h2).swerveZeroPosition =
          (env h2).swerveZeroPosition) ∧
      (∀ h2 : Nat, h2 ≠ tr.m_frontRight → h2 ≠ tr.m_frontLeft →
        h2 ≠ tr.m_rearLeft → h2 ≠ tr.m_rearRight →
        envAfter (tr.setSwerveSpeed env v) h2 = env h2) ∧
      traceOf (tr.setSwerveSpeed env v) =
        [Event.swerveCmd tr.m_frontRight v, Event.swerveCmd tr.m_frontLeft v,
         Event.swerveCmd tr.m_rearLeft v, Event.swerveCmd tr.m_rearRight v]) := by
  refine ⟨⟨rfl, ?_, ?_, ?_, ?_, ?_, ?_, rfl⟩, ⟨rfl, ?_, ?_, ?_, ?_, ?_, ?_, rfl⟩⟩
  · rw [setDriveSpeed_env_eq]; simp [SwerveModule.setDriveSpeed]
  · rw [setDriveSpeed_env_eq]; simp [SwerveModule.setDriveSpeed]
  · rw [setDriveSpeed_env_eq]; simp [SwerveModule.setDriveSpeed]
  · rw [setDriveSpeed_env_eq]; simp [SwerveModule.setDriveSpeed]
  · intro h2
    simp only [setDriveSpeed_env_eq]
    split_ifs <;> simp [SwerveModule.setDriveSpeed]
  · intro h2 hfr hfl hrl hrr
    rw [setDriveSpeed_env_eq]
    simp [hfr, hfl, hrl, hrr]
  · rw [setSwerveSpeed_env_eq]; simp [SwerveModule.setSwerveSpeed]
  · rw [setSwerveSpeed_env_eq]; simp [SwerveModule.setSwerveSpeed]
  · rw [setSwerveSpeed_env_eq]; simp [SwerveModule.setSwerveSpeed]
  · rw [setSwerveSpeed_env_eq]; simp [SwerveModule.setSwerveSpeed]
  · intro h2
    simp only [setSwerveSpeed_env_eq]
    split_ifs <;> simp [SwerveModule.setSwerveSpeed]
  · intro h2 hfr hfl hrl hrr
    rw [setSwerveSpeed_env_eq]
    simp [hfr, hfl, hrl, hrr]

/-- Witness for C5 at a concrete train, environment and speed: the frame
conditions are discharged at handle 9, which the train does not hold. -/
theorem setDriveSpeed_setSwerveSpeed_broadcast_witness :
    (envAfter (witnessTrain.setDriveSpeed witnessEnv 5) 0).driveSpeed = 5 ∧
      (envAfter (witnessTrain.setDriveSpeed witnessEnv 5) 9).swerveSpeed =
        (witnessEnv 9).swerveSpeed ∧
      envAfter (witnessTrain.setSwerveSpeed witnessEnv 5) 9 = witnessEnv 9 := by
  have h := setDriveSpeed_setSwerveSpeed_broadcast witnessTrain witnessEnv 5
  refine ⟨h.1.2.1, (h.1.2.2.2.2.2.1 9).1, ?_⟩
  exact h.2.2.2.2.2.2.2.1 9 (by decide) (by decide) (by decide) (by decide)

/-- Evaluating the four-fold zero-capture update: a handle among the four
gets its zero reference set to its raw position; any other handle is
untouched. -/
lemma setZeroChain_eq (env : ModuleEnv) (a b c d h2 : Nat) :
    updEnv (updEnv (updEnv (updEnv env a SwerveModule.setZeroPosition) b
        SwerveModule.setZeroPosition) c SwerveModule.setZeroPosition) d
        SwerveModule.setZeroPosition h2 =
      if h2 = a ∨ h2 = b ∨ h2 = c ∨ h2 = d
      then (env h2).setZeroPosition else env h2 := by
  simp only [updEnv]
  split_ifs <;> simp_all [SwerveModule.setZeroPosition]

/-- C6: the zero-capture broadcast performs the per-module zero capture on
all four modules on every call (each stored zero becomes that module's
current raw position), publishes the four captured values to telemetry
exactly when `verbose` is true, and issues no motion command — no
drive-speed write, swerve-speed write or azimuth position command. -/
theorem setSwerveZeroPosition_capture_publish_nomotion (tr : SwerveTrain)
    (env : ModuleEnv) (verbose : Bool) :
    trainAfter (tr.setSwerveZeroPosition env verbose) = tr ∧
      (envAfter (tr.setSwerveZeroPosition env verbose)
        tr.m_frontRight).swerveZeroPosition = (env tr.m_frontRight).swervePosition ∧
      (envAfter (tr.setSwerveZeroPosition env verbose)
        tr.m_frontLeft).swerveZeroPosition = (env tr.m_frontLeft).swervePosition ∧
      (envAfter (tr.setSwerveZeroPosition env verbose)
        tr.m_rearLeft).swerveZeroPosition = (env tr.m_rearLeft).swervePosition ∧
      (envAfter (tr.setSwerveZeroPosition env verbose)
        tr.m_rearRight).swerveZeroPosition = (env tr.m_rearRight).swervePosition ∧
      traceOf (tr.setSwerveZeroPosition env verbose) =
        [Event.captureZero tr.m_frontRight, Event.captureZero tr.m_frontLeft,
         Event.captureZero tr.m_rearLeft, Event.captureZero tr.m_rearRight] ++
        (if verbose then
          [Event.publish "FR Swrv Pos0" (env tr.m_frontRight).swervePosition,
           Event.publish "FL Swrv Pos0" (env tr.m_frontLeft).swervePosition,
           Event.publish "RL Swrv Pos0" (env tr.m_rearLeft).swervePosition,
           Event.publish "RR Swrv Pos0" (env tr.m_rearRight).swervePosition]
         else []) ∧
      (verbose = false → ∀ (key : String) (val : ℚ),
        Event.publish key val ∉ traceOf (tr.setSwerveZeroPosition env verbose)) ∧
      (∀ e ∈ traceOf (tr.setSwerveZeroPosition env verbose),
        isMotionEvent e = false) := by
  refine ⟨rfl, ?_, ?_, ?_, ?_, ?_, ?_, ?_⟩
  · rw [setSwerveZeroPosition_env_eq]; simp [SwerveModule.setZeroPosition]
  · rw [setSwerveZeroPosition_env_eq]; simp [SwerveModule.setZeroPosition]
  · rw [setSwerveZeroPosition_env_eq]; simp [SwerveModule.setZeroPosition]
  · rw [setSwerveZeroPosition_env_eq]; simp [SwerveModule.setZeroPosition]
  · cases verbose <;>
      simp [traceOf, SwerveTrain.setSwerveZeroPosition, setZeroChain_eq,
        SwerveModule.setZeroPosition, SwerveModule.getSwerveZeroPosition]
  · intro hv key val
    subst hv
    simp [traceOf, SwerveTrain.setSwerveZeroPosition]
  · intro e he
    simp only [traceOf, SwerveTrain.setSwerveZeroPosition] at he
    cases verbose
    · simp at he
      rcases he with rfl | rfl | rfl | rfl <;> rfl
    · simp at he
      rcases he with rfl | rfl | rfl | rfl | rfl | rfl | rfl | rfl <;> rfl

/-- Witness for C6 at a concrete train and environment with `verbose`
false: the front-right zero is captured and nothing is published. -/
theorem setSwerveZeroPosition_capture_publish_nomotion_witness :
    (envAfter (witnessTrain.setSwerveZeroPosition witnessEnv false)
        0).swerveZeroPosition = 3200 ∧
      Event.publish "FR Swrv Pos0" 3200 ∉
        traceOf (witnessTrain.setSwerveZeroPosition witnessEnv false) := by
  have h := setSwerveZeroPosition_capture_publish_nomotion witnessTrain witnessEnv false
  exact ⟨by simpa [witnessTrain, witnessEnv] using h.2.1,
    h.2.2.2.2.2.2.1 rfl "FR Swrv Pos0" 3200⟩

/-- The homing command `assumeZeroPosition` issues for one module, as a
function of that module's own state alone. -/
def homeZeroEvent (h : Nat) (m : SwerveModule) : Event :=
  Event.homeTo h m.getSwerveZeroPosition

/-- The homing command `assumeNearestZeroPosition` issues for one module,
as a function of that module's own state alone. -/
def homeNearestEvent (P : ℚ) (h : Nat) (m : SwerveModule) : Event :=
  Event.homeTo h (nearestZeroTarget P m.getSwerveZeroPosition m.getSwervePosition)

/-- The telemetry entry `publishSwervePositions` issues for one module, as
a function of that module's own state alone. -/
def publishPositionEvent (key : String) (m : SwerveModule) : Event :=
  Event.publish key m.getSwervePosition

/-- The telemetry entry the verbose zero-capture broadcast issues for one
module: that module's freshly captured zero, a function of the one
module's own state alone. -/
def publishCapturedZeroEvent (key : String) (m : SwerveModule) : Event :=
  Event.publish key m.setZeroPosition.getSwerveZeroPosition

/-- C8: every bulk dispatcher operation addresses the modules in the fixed
order front-right, front-left, rear-left, rear-right, and each per-module
event is a function of the operation's argument and that one module's own
state, never of another module's result. -/
theorem bulk_ops_fixed_order_and_independent (tr : SwerveTrain) (env : ModuleEnv)
    (v w : ℚ) (verbose : Bool) (P : ℚ) :
    List.filterMap eventModule (traceOf (tr.setDriveSpeed env v)) =
      [tr.m_frontRight, tr.m_frontLeft, tr.m_rearLeft, tr.m_rearRight] ∧
      List.filterMap eventModule (traceOf (tr.setSwerveSpeed env w)) =
        [tr.m_frontRight, tr.m_frontLeft, tr.m_rearLeft, tr.m_rearRight] ∧
      List.filterMap eventModule (traceOf (tr.setSwerveZeroPosition env verbose)) =
        [tr.m_frontRight, tr.m_frontLeft, tr.m_rearLeft, tr.m_rearRight] ∧
      List.filterMap eventModule (traceOf (tr.assumeZeroPosition env)) =
        [tr.m_frontRight, tr.m_frontLeft, tr.m_rearLeft, tr.m_rearRight] ∧
      List.filterMap eventModule (traceOf (tr.assumeNearestZeroPosition env P)) =
        [tr.m_frontRight, tr.m_frontLeft, tr.m_rearLeft, tr.m_rearRight] ∧
      traceOf (tr.setDriveSpeed env v) =
        [Event.driveCmd tr.m_frontRight v, Event.driveCmd tr.m_frontLeft v,
         Event.driveCmd tr.m_rearLeft v, Event.driveCmd tr.m_rearRight v] ∧
      traceOf (tr.assumeZeroPosition env) =
        [homeZeroEvent tr.m_frontRight (env tr.m_frontRight),
         homeZeroEvent tr.m_frontLeft (env tr.m_frontLeft),
         homeZeroEvent tr.m_rearLeft (env tr.m_rearLeft),
         homeZeroEvent tr.m_rearRight (env tr.m_rearRight)] ∧
      traceOf (tr.assumeNearestZeroPosition env P) =
        [homeNearestEvent P tr.m_frontRight (env tr.m_frontRight),
         homeNearestEvent P tr.m_frontLeft (env tr.m_frontLeft),
         homeNearestEvent P tr.m_rearLeft (env tr.m_rearLeft),
         homeNearestEvent P tr.m_rearRight (env tr.m_rearRight)] ∧
      traceOf (tr.publishSwervePositions env) =
        [publishPositionEvent "FR Swrv Pos" (env tr.m_frontRight),
         publishPositionEvent "FL Swrv Pos" (env tr.m_frontLeft),
         publishPositionEvent "RL Swrv Pos" (env tr.m_rearLeft),
         publishPositionEvent "RR Swrv Pos" (env tr.m_rearRight)] ∧
      traceOf (tr.setSwerveSpeed env w) =
        [Event.swerveCmd tr.m_frontRight w, Event.swerveCmd tr.m_frontLeft w,
         Event.swerveCmd tr.m_rearLeft w, Event.swerveCmd tr.m_rearRight w] ∧
      traceOf (tr.setSwerveZeroPosition env verbose) =
        [Event.captureZero tr.m_frontRight, Event.captureZero tr.m_frontLeft,
         Event.captureZero tr.m_rearLeft, Event.captureZero tr.m_rearRight] ++
        (if verbose then
          [publishCapturedZeroEvent "FR Swrv Pos0" (env tr.m_frontRight),
           publishCapturedZeroEvent "FL Swrv Pos0" (env tr.m_frontLeft),
           publishCapturedZeroEvent "RL Swrv Pos0" (env tr.m_rearLeft),
           publishCapturedZeroEvent "RR Swrv Pos0" (env tr.m_rearRight)]
         else []) := by
  refine ⟨?_, ?_, ?_, ?_, ?_, rfl, rfl, rfl, rfl, rfl, ?_⟩
  · simp [traceOf, SwerveTrain.setDriveSpeed, eventModule]
  · simp [traceOf, SwerveTrain.setSwerveSpeed, eventModule]
  · cases verbose <;> simp [traceOf, SwerveTrain.setSwerveZeroPosition, eventModule]
  · simp [traceOf, SwerveTrain.assumeZeroPosition, eventModule]
  · simp [traceOf, SwerveTrain.assumeNearestZeroPosition, eventModule]
  · cases verbose <;>
      simp [traceOf, SwerveTrain.setSwerveZeroPosition, setZeroChain_eq,
        publishCapturedZeroEvent, SwerveModule.setZeroPosition,
        SwerveModule.getSwerveZeroPosition]

/-- Concrete network table used by the C9 witness: only `tx` holds a value. -/
def witnessTable : NetworkTable :=
  fun key => if key = "tx" then some 3 else none

/-- C9: each limelight accessor returns the number stored under its key and
falls back to the default 0 when the key is absent, and the boolean target
test is false exactly when the stored `tv` is 0 or absent.  Each accessor
is a pure function of the table, so none modifies it. -/
theorem limelight_accessors_spec (t : NetworkTable) (v : ℚ) :
    (t "tx" = some v → Limelight.horizontalOffset t = v) ∧
      (t "tx" = none → Limelight.horizontalOffset t = 0) ∧
      (t "ty" = some v → Limelight.verticalOffset t = v) ∧
      (t "ty" = none → Limelight.verticalOffset t = 0) ∧
      (t "ta" = some v → Limelight.targetArea t = v) ∧
      (t "ta" = none → Limelight.targetArea t = 0) ∧
      (Limelight.target t = false ↔ (t "tv" = some 0 ∨ t "tv" = none)) := by
  refine ⟨?_, ?_, ?_, ?_, ?_, ?_, ?_⟩
  · intro h; simp [Limelight.horizontalOffset, NetworkTable.getNumber, h]
  · intro h; simp [Limelight.horizontalOffset, NetworkTable.getNumber, h]
  · intro h; simp [Limelight.verticalOffset, NetworkTable.getNumber, h]
  · intro h; simp [Limelight.verticalOffset, NetworkTable.getNumber, h]
  · intro h; simp [Limelight.targetArea, NetworkTable.getNumber, h]
  · intro h; simp [Limelight.targetArea, NetworkTable.getNumber, h]
  · rcases htv : t "tv" with _ | a
    · simp [Limelight.target, NetworkTable.getNumber, htv]
    · simp only [Limelight.target, NetworkTable.getNumber, htv, Option.getD_some]
      split_ifs with h0
      · simp [htv, h0]
      · simp [htv, h0]

/-- Witness for C9: on a table storing only `tx = 3`, the horizontal
offset is 3, the vertical offset defaults to 0, and no target is seen. -/
theorem limelight_accessors_spec_witness :
    Limelight.horizontalOffset witnessTable = 3 ∧
      Limelight.verticalOffset witnessTable = 0 ∧
      Limelight.target witnessTable = false := by
  have h := limelight_accessors_spec witnessTable 3
  refine ⟨h.1 (by simp [witnessTable]), h.2.2.2.1 (by simp [witnessTable]), ?_⟩
  exact h.2.2.2.2.2.2.mpr (Or.inr (by simp [witnessTable]))

/-- C10: the dispatcher's only state is the four module handles set at
construction; every public operation returns them unchanged, and two calls
of the same operation with the same arguments against the same module
environment issue the same command sequence. -/
theorem dispatcher_handles_fixed_and_deterministic (tr tr2 : SwerveTrain)
    (env env2 : ModuleEnv) (v w : ℚ) (verbose : Bool) (P : ℚ)
    (htr : tr2 = tr) (henv : env2 = env) :
    trainAfter (tr.setDriveSpeed env v) = tr ∧
      trainAfter (tr.setSwerveSpeed env w) = tr ∧
      trainAfter (tr.setSwerveZeroPosition env verbose) = tr ∧
      trainAfter (tr.assumeZeroPosition env) = tr ∧
      trainAfter (tr.assumeNearestZeroPosition env P) = tr ∧
      trainAfter (tr.publishSwervePositions env) = tr ∧
      traceOf (tr2.setDriveSpeed env2 v) = traceOf (tr.setDriveSpeed env v) ∧
      traceOf (tr2.setSwerveSpeed env2 w) = traceOf (tr.setSwerveSpeed env w) ∧
      traceOf (tr2.setSwerveZeroPosition env2 verbose) =
        traceOf (tr.setSwerveZeroPosition env verbose) ∧
      traceOf (tr2.assumeZeroPosition env2) = traceOf (tr.assumeZeroPosition env) ∧
      traceOf (tr2.assumeNearestZeroPosition env2 P) =
        traceOf (tr.assumeNearestZeroPosition env P) ∧
      traceOf (tr2.publishSwervePositions env2) =
        traceOf (tr.publishSwervePositions env) := by
  subst htr
  subst henv
  exact ⟨rfl, rfl, rfl, rfl, rfl, rfl, rfl, rfl, rfl, rfl, rfl, rfl⟩

/-- Witness for C10 at a concrete train, environment and arguments. -/
theorem dispatcher_handles_fixed_and_deterministic_witness :
    trainAfter (witnessTrain.setDriveSpeed witnessEnv 5) = witnessTrain ∧
      traceOf (witnessTrain.publishSwervePositions witnessEnv) =
        traceOf (witnessTrain.publishSwervePositions witnessEnv) := by
  have h := dispatcher_handles_fixed_and_deterministic witnessTrain witnessTrain
    witnessEnv witnessEnv 5 7 false 4096 rfl rfl
  exact ⟨h.1, h.2.2.2.2.2.2.2.2.2.2.2⟩
